import Mathlib

/-
Verification development for the notary trust-distribution server:
the signing-key registry and timestamp freshness engine
(server/timestamp, shared with server/snapshot), and the trust
bootstrap & root-rotation validator (certs/certs.go).

External collaborators (metadata store, certificate store, crypto
service, x509/signature primitives) are shallowly embedded as oracle
fields holding the responses of the successive calls one run makes;
the control flow of each embedded function mirrors the Go source.
-/

namespace Notary

/-! ## Signing-key registry (server/timestamp GetOrCreateTimestampKey) -/

/-- Error universe for the metadata store's key calls: the store's
distinguished ErrNoKey and ErrKeyExists variants, and any other error. -/
inductive KeyErr
  | noKey
  | keyExists
  | other (msg : String)
  deriving DecidableEq

/-- data.PublicKey: algorithm plus public key bytes. -/
structure PubKey where
  algorithm : String
  public : List Nat
  deriving DecidableEq

/-- data.NewPublicKey. -/
def NewPublicKey (alg : String) (pub : List Nat) : PubKey := ⟨alg, pub⟩

/-- Oracle for one GetOrCreate*Key run: the responses of the (at most)
four collaborator calls it can make, in source order: the first
store.GetKey, crypto.Create, store.SetKey, and the re-read store.GetKey
after a SetKey conflict.  Distinct fields for the two GetKey calls model
a store whose answer can change between the calls (a concurrent racer). -/
structure KeyEnv where
  getKey1 : Except KeyErr (String × List Nat)
  create : Except KeyErr PubKey
  setKey : Option KeyErr
  getKey2 : Except KeyErr (String × List Nat)

/-- Which mutating collaborator calls a run performed. -/
structure KeyCalls where
  createCalled : Bool
  setKeyCalled : Bool
  deriving DecidableEq

/-- GetOrCreateTimestampKey from server/timestamp: return the stored key
if GetKey succeeds; on ErrNoKey create and SetKey; on an ErrKeyExists
conflict re-read and return whatever now exists; propagate anything else. -/
def GetOrCreateTimestampKey (env : KeyEnv) : Except KeyErr PubKey × KeyCalls :=
  match env.getKey1 with
  | Except.ok kp => (Except.ok (NewPublicKey kp.1 kp.2), ⟨false, false⟩)
  | Except.error KeyErr.noKey =>
    match env.create with
    | Except.error e => (Except.error e, ⟨true, false⟩)
    | Except.ok key =>
      match env.setKey with
      | none => (Except.ok key, ⟨true, true⟩)
      | some KeyErr.keyExists =>
        (match env.getKey2 with
         | Except.ok kp2 => (Except.ok (NewPublicKey kp2.1 kp2.2), ⟨true, true⟩)
         | Except.error e2 => (Except.error e2, ⟨true, true⟩))
      | some e => (Except.error e, ⟨true, true⟩)
  | Except.error e => (Except.error e, ⟨false, false⟩)

/-- Modelled from the spec: GetOrCreateSnapshotKey (server/snapshot is
not under src/, only its tests are); section 4.2 specifies one
role-generic registry algorithm shared by both roles, identical to the
timestamp variant above. -/
def GetOrCreateSnapshotKey (env : KeyEnv) : Except KeyErr PubKey × KeyCalls :=
  GetOrCreateTimestampKey env

/-! ## Timestamp freshness engine (server/timestamp GetOrCreateTimestamp) -/

/-- Error universe for the timestamp engine: the store's not-found,
a JSON parse failure, and any other store/engine error. -/
inductive TsErr
  | notFound
  | parseFail (msg : String)
  | otherErr (msg : String)
  deriving DecidableEq

/-- data.SignedTimestamp, reduced to the fields the engine reads:
the expiry and the per-role recorded hashes (ts.Signed.Meta). -/
structure SignedTimestamp where
  expires : Nat
  meta : List (String × List (String × List Nat))
  deriving DecidableEq

/-- storage.MetaUpdate. -/
structure MetaUpdate where
  role : String
  version : Nat
  data : List Nat
  deriving DecidableEq

/-- Modelled from the spec: signed.IsExpired (tuf/signed is not under
src/); "expired" means the current time is at or after the expiry. -/
def IsExpired (now expires : Nat) : Bool := expires ≤ now

/-- timestampExpired from server/timestamp: compares the current time
to the expiry time of the timestamp. -/
def timestampExpired (now : Nat) (ts : SignedTimestamp) : Bool :=
  IsExpired now ts.expires

/-- Modelled from the spec: data.CheckHashes (tuf/data is not under
src/); every hash recorded for the payload must match the computed one,
and at least one hash must be recorded. -/
def CheckHashes (hashFn : String → List Nat → List Nat) (payload : List Nat)
    (hashes : List (String × List Nat)) : Bool :=
  !hashes.isEmpty && hashes.all fun h => hashFn h.1 payload == h.2

/-- snapshotExpired from server/timestamp: the snapshot is treated as
expired when its bytes no longer match the hashes the timestamp records
for the snapshot role. -/
def snapshotExpired (hashFn : String → List Nat → List Nat)
    (ts : SignedTimestamp) (snapshot : List Nat) : Bool :=
  !(CheckHashes hashFn snapshot ((List.lookup ("snapshot") ts.meta).getD []))

/-- Oracle for one GetOrCreateTimestamp run: responses of the successive
collaborator calls (store.GetCurrent on the timestamp role, the JSON
unmarshal of its bytes, snapshot.GetOrCreateSnapshot, createTimestamp,
store.UpdateCurrent), plus the clock values the run reads. -/
structure TsEnv where
  now : Nat
  wallClock : Nat
  hashFn : String → List Nat → List Nat
  getCurrentTS : Except TsErr (Nat × List Nat)
  parseTS : List Nat → Except String SignedTimestamp
  getSnapshot : Except TsErr (List Nat)
  createTS : Except TsErr MetaUpdate
  updateCurrent : MetaUpdate → Option TsErr

/-- GetOrCreateTimestamp from server/timestamp.  The second component
records the MetaUpdate passed to store.UpdateCurrent, if that call was
made. -/
def GetOrCreateTimestamp (env : TsEnv) :
    Except TsErr (Nat × List Nat) × Option MetaUpdate :=
  match env.getCurrentTS with
  | Except.error e => (Except.error e, none)
  | Except.ok lmJSON =>
    match env.parseTS lmJSON.2 with
    | Except.error msg => (Except.error (TsErr.parseFail msg), none)
    | Except.ok prev =>
      match env.getSnapshot with
      | Except.error e => (Except.error e, none)
      | Except.ok snapshot =>
        if !timestampExpired env.now prev && !snapshotExpired env.hashFn prev snapshot then
          (Except.ok (lmJSON.1, lmJSON.2), none)
        else
          match env.createTS with
          | Except.error e => (Except.error e, none)
          | Except.ok update =>
            match env.updateCurrent update with
            | some e => (Except.error e, some update)
            | none => (Except.ok (env.wallClock, update.data), some update)

/-! ## Trust bootstrap & rotation validator (certs/certs.go) -/

/-- x509 signature algorithms, with the three SHA-1-family values the
validator rejects kept distinct. -/
inductive SigAlg
  | sha1WithRSA
  | dsaWithSHA1
  | ecdsaWithSHA1
  | sha256WithRSA
  | ed25519Alg
  | otherAlg
  deriving DecidableEq

/-- The SHA-1-family check of validRootLeafCerts (x509.SHA1WithRSA,
x509.DSAWithSHA1, x509.ECDSAWithSHA1). -/
def isSHA1 : SigAlg → Bool
  | SigAlg.sha1WithRSA => true
  | SigAlg.dsaWithSHA1 => true
  | SigAlg.ecdsaWithSHA1 => true
  | _ => false

/-- An x509 certificate, reduced to the fields the validator reads:
Subject.CommonName, NotAfter, SignatureAlgorithm, IsCA, and the DER
content (identity for fingerprinting). -/
structure Cert where
  commonName : String
  notAfter : Nat
  sigAlg : SigAlg
  isCA : Bool
  der : List Nat
  deriving DecidableEq

/-- Outcome of trustmanager.LoadCertBundleFromPEM on one root key's
public payload: a parse failure or the decoded certificate bundle. -/
inductive BundleRes
  | malformed
  | certs (cs : List Cert)
  deriving DecidableEq

/-- data.SignedRoot, reduced to what parseAllCerts reads: the root
role's key IDs (none when the "root" role is missing) and the key map
with each key's decoded PEM bundle. -/
structure SignedRoot where
  rootKeyIDs : Option (List String)
  keys : List (String × BundleRes)
  deriving DecidableEq

/-- data.Signed for the root: the parse outcome of data.RootFromSigned
plus the document's signatures (by signature identifier). -/
structure RootDoc where
  parsed : Option SignedRoot
  sigs : List String
  deriving DecidableEq

/-- notary.TrustPinConfig: pinned certificate IDs by GUN, CA file paths
by GUN prefix (an association list, iterated in order), and the TOFU
flag. -/
structure TrustPinConfig where
  Certs : List (String × String)
  CA : List (String × String)
  TOFU : Bool
  deriving DecidableEq

/-- Outcome of certStore.GetCertificatesByCN: certificates found, the
distinguished ErrNoCertificatesFound, or any other store error. -/
inductive CertStoreRes
  | found (cs : List Cert)
  | noCerts
  | storeErr
  deriving DecidableEq

/-- Outcome of certStore.AddCert: success, the distinguished
ErrCertExists, or any other error. -/
inductive AddRes
  | ok
  | alreadyExists
  | otherErr
  deriving DecidableEq

/-- Oracle for one ValidateRoot run: the collaborator primitives it
calls (trustmanager.FingerprintCert, the signature check underlying
signed.VerifyRoot, trustmanager.LoadCertFromFile and
ValidateCertificate, x509 chain verification) and the certificate-store
responses. -/
structure Env where
  now : Nat
  fpr : Cert → Option String
  sigValid : String → Cert → Bool
  loadCert : String → Option Cert
  validateCA : Cert → Bool
  chainVerify : Cert → Cert → List Cert → Bool
  getByCN : CertStoreRes
  addCert : Cert → AddRes
  removeCert : Cert → Bool

/-- Result of ValidateRoot: success, ErrValidationFail with its reason,
ErrRootRotationFail with its reason, or the raw error propagated when
data.RootFromSigned fails. -/
inductive VResult
  | ok
  | validationFail (reason : String)
  | rotationFail (reason : String)
  | parseFail
  deriving DecidableEq

/-- Discriminator for the ErrValidationFail outcome. -/
def VResult.isValidationFail : VResult → Bool
  | VResult.validationFail _ => true
  | _ => false

/-- Discriminator for the ErrRootRotationFail outcome. -/
def VResult.isRotationFail : VResult → Bool
  | VResult.rotationFail _ => true
  | _ => false

/-- Certificate-store calls a ValidateRoot run performed in its rotation
step: the AddCert calls with their results, and the RemoveCert calls. -/
structure Trace where
  adds : List (Cert × AddRes)
  removed : List Cert
  deriving DecidableEq

def emptyTrace : Trace := ⟨[], []⟩

/-- Go-map insertion (later writes overwrite earlier ones) on an
association list. -/
def insertAssoc {α : Type} (m : List (String × α)) (k : String) (v : α) :
    List (String × α) :=
  (m.filter fun p => p.1 != k) ++ [(k, v)]

/-- Modelled from the spec: trustmanager.GetLeafCerts (trustmanager is
not under src/); the leaf certificates are the non-CA ones. -/
def GetLeafCerts (cs : List Cert) : List Cert := cs.filter fun c => !c.isCA

/-- Modelled from the spec: trustmanager.GetIntermediateCerts; the
intermediates are the certificates marked as a CA. -/
def GetIntermediateCerts (cs : List Cert) : List Cert := cs.filter fun c => c.isCA

/-- parseAllCerts from certs/certs.go: walk the root role's key IDs,
decode each key's bundle (skipping malformed ones), keep exactly-one
leaf bundles, fingerprint the leaf (skipping failures), and record the
leaf and its bundled intermediates by leaf ID. -/
def parseAllCerts (fpr : Cert → Option String) (root : SignedRoot) :
    List (String × Cert) × List (String × List Cert) :=
  match root.rootKeyIDs with
  | none => ([], [])
  | some keyIDs =>
    keyIDs.foldl
      (fun acc keyID =>
        match List.lookup keyID root.keys with
        | none => acc
        | some BundleRes.malformed => acc
        | some (BundleRes.certs decoded) =>
          match GetLeafCerts decoded with
          | [leafCert] =>
            (match fpr leafCert with
             | none => acc
             | some leafID =>
               (insertAssoc acc.1 leafID leafCert,
                insertAssoc acc.2 leafID (GetIntermediateCerts decoded)))
          | _ => acc)
      ([], [])

/-- The per-leaf validity test of validRootLeafCerts: Common Name equal
to the GUN, not expired, and not a SHA-1-family signature algorithm. -/
def validLeafPred (now : Nat) (gun : String) (c : Cert) : Bool :=
  c.commonName == gun && !(decide (c.notAfter < now)) && !(isSHA1 c.sigAlg)

/-- validRootLeafCerts from certs/certs.go: the valid leaf certificates
of the root, failing when there are none. -/
def validRootLeafCerts (fpr : Cert → Option String) (now : Nat)
    (root : SignedRoot) (gun : String) : Except Unit (List Cert) :=
  let valid := ((parseAllCerts fpr root).1.map Prod.snd).filter (validLeafPred now gun)
  if valid.length < 1 then Except.error () else Except.ok valid

/-- Modelled from the spec: signed.VerifyRoot at threshold 0 (tuf/signed
is not under src/); any one signature of the document that is valid
against the keys of the supplied certificates suffices. -/
def VerifyRoot (sigValid : String → Cert → Bool) (sigs : List String)
    (certs : List Cert) : Bool :=
  sigs.any fun s => certs.any fun c => sigValid s c

/-- Modelled from the spec: utils.ContainsKeyPrefix (utils is not under
src/); some key of the CA map is a prefix of the GUN. -/
def containsKeyPrefixFor (ca : List (String × String)) (gun : String) : Bool :=
  ca.any fun e => e.1.isPrefixOf gun

/-- The pinned-certificate scan of ValidateRoot: first valid leaf whose
fingerprint equals the pinned ID, skipping fingerprint failures. -/
def findPinned (fpr : Cert → Option String) (pinnedID : String) :
    List Cert → Option Cert
  | [] => none
  | c :: rest =>
    match fpr c with
    | none => findPinned fpr pinnedID rest
    | some certID =>
      if certID == pinnedID then some c else findPinned fpr pinnedID rest

/-- The per-leaf retention test of the CA-pin loop: fingerprint the
leaf (drop it on failure) and keep it when an x509 chain from it to the
CA verifies, using the intermediates bundled under the same leaf ID. -/
def caKeep (env : Env) (root : SignedRoot) (caCert : Cert) (cert : Cert) : Bool :=
  match env.fpr cert with
  | none => false
  | some certID =>
    env.chainVerify cert caCert ((List.lookup certID (parseAllCerts env.fpr root).2).getD [])

/-- One matching entry of the CA-pin loop: load the CA certificate from
its file, validate it, and retain exactly the currently-retained leaves
that chain-verify against it. -/
def caStep (env : Env) (root : SignedRoot) (caFilepath : String)
    (certs : List Cert) : Except String (List Cert) :=
  match env.loadCert caFilepath with
  | none => Except.error ("failed to load specified CA trust pin")
  | some caCert =>
    if env.validateCA caCert then Except.ok (certs.filter (caKeep env root caCert))
    else Except.error ("failed to validate specified CA trust pin")

/-- The CA-pin loop of ValidateRoot: iterate the CA map entries in
order, applying caStep for every entry whose key is a prefix of the
GUN and overwriting the retained set with its result. -/
def caLoop (env : Env) (root : SignedRoot) (gun : String) :
    List (String × String) → List Cert → Except String (List Cert)
  | [], certs => Except.ok certs
  | e :: rest, certs =>
    if e.1.isPrefixOf gun then
      match caStep env root e.2 certs with
      | Except.error msg => Except.error msg
      | Except.ok kept => caLoop env root gun rest kept
    else caLoop env root gun rest certs

/-- Accumulator of the spec-side fold over matching CA entries. -/
def caAccum (env : Env) (root : SignedRoot)
    (acc : Except String (List Cert)) (e : String × String) :
    Except String (List Cert) :=
  match acc with
  | Except.error msg => Except.error msg
  | Except.ok cs => caStep env root e.2 cs

/-- Follows the spec's words (section 4.1 step 4b): each successive
matching CA narrows the retained set, expressed as a left fold of
caStep over the matching entries in order. -/
def caMatchFold (env : Env) (root : SignedRoot)
    (entries : List (String × String)) (certs : List Cert) :
    Except String (List Cert) :=
  entries.foldl (caAccum env root) (Except.ok certs)

/-- The trust-decision block of ValidateRoot (entered only when the
store holds no certificates for the GUN): pinned certificate ID, then
CA prefixes, then TOFU; the result is the accepted certificate set or
the ErrValidationFail reason. -/
def bootstrapTrust (env : Env) (sr : SignedRoot) (gun : String)
    (pin : TrustPinConfig) (allValid : List Cert) : Except String (List Cert) :=
  match List.lookup gun pin.Certs with
  | some pinnedID =>
    match findPinned env.fpr pinnedID allValid with
    | some c => Except.ok [c]
    | none => Except.error ("failed to find matching certificate ID ")
  | none =>
    if containsKeyPrefixFor pin.CA gun then
      (if 0 < pin.CA.length then caLoop env sr gun pin.CA allValid
       else Except.ok allValid)
    else if pin.TOFU then Except.ok allValid
    else Except.error ("could not bootstrap trust without trust_pinning configuration")

/-- The addition loop of the rotation step: AddCert is called on every
accepted certificate; results ("already exists" or any other error) are
only logged and never alter control flow. -/
def addLoop (ad : Cert → AddRes) (cs : List Cert) : List (Cert × AddRes) :=
  cs.map fun c => (c, ad c)

/-- The removal loop of the rotation step: RemoveCert each target in
order, stopping at the first failure.  Returns whether all removals
succeeded and the RemoveCert calls made. -/
def removeLoop (rm : Cert → Bool) : List Cert → Bool × List Cert
  | [] => (true, [])
  | c :: rest =>
    if rm c then ((removeLoop rm rest).1, c :: (removeLoop rm rest).2)
    else (false, [c])

/-- certsToRemove from certs/certs.go: the old certificates whose
fingerprints are absent from the new set, keyed by fingerprint; empty
whenever no new certificates were provided.  Fingerprint failures are
skipped on both sides. -/
def certsToRemove (fpr : Cert → Option String) (oldCerts newCerts : List Cert) :
    List (String × Cert) :=
  if newCerts.length == 0 then []
  else
    let newIDs := newCerts.filterMap fpr
    oldCerts.foldl
      (fun acc cert =>
        match fpr cert with
        | none => acc
        | some certID =>
          if newIDs.contains certID then acc else insertAssoc acc certID cert)
      []

/-- The rotation step of ValidateRoot: add every accepted certificate
(best effort), then remove every previously trusted certificate absent
from the accepted set; any removal failure yields ErrRootRotationFail. -/
def rotation (env : Env) (accepted existing : List Cert) : VResult × Trace :=
  (if (removeLoop env.removeCert ((certsToRemove env.fpr existing accepted).map Prod.snd)).1
   then VResult.ok
   else VResult.rotationFail ("failed to rotate root keys"),
   ⟨addLoop env.addCert accepted,
    (removeLoop env.removeCert ((certsToRemove env.fpr existing accepted).map Prod.snd)).2⟩)

/-- The tail of ValidateRoot: the integrity check of the root against
the accepted set (certs/certs.go line 195), followed by rotation. -/
def verifyAndRotate (env : Env) (sigs : List String)
    (accepted certsForCN : List Cert) : VResult × Trace :=
  if VerifyRoot env.sigValid sigs accepted then rotation env accepted certsForCN
  else (VResult.validationFail ("failed to validate integrity of roots"), emptyTrace)

/-- The bootstrap arm of ValidateRoot: run the trust decision, then the
integrity check and rotation on its accepted set. -/
def bootstrapAndFinish (env : Env) (sr : SignedRoot) (sigs : List String)
    (gun : String) (pin : TrustPinConfig) (allValid certsForCN : List Cert) :
    VResult × Trace :=
  match bootstrapTrust env sr gun pin allValid with
  | Except.error reason => (VResult.validationFail reason, emptyTrace)
  | Except.ok accepted => verifyAndRotate env sigs accepted certsForCN

/-- ValidateRoot from certs/certs.go.  The second component is the
certificate-store mutation trace of the run. -/
def ValidateRoot (env : Env) (root : RootDoc) (gun : String)
    (pin : TrustPinConfig) : VResult × Trace :=
  match root.parsed with
  | none => (VResult.parseFail, emptyTrace)
  | some sr =>
    match validRootLeafCerts env.fpr env.now sr gun with
    | Except.error _ =>
      (VResult.validationFail ("unable to retrieve valid leaf certificates"), emptyTrace)
    | Except.ok allValid =>
      match env.getByCN with
      | CertStoreRes.storeErr =>
        (VResult.validationFail ("unable to retrieve trusted certificates"), emptyTrace)
      | CertStoreRes.noCerts => bootstrapAndFinish env sr root.sigs gun pin allValid []
      | CertStoreRes.found certsForCN =>
        if certsForCN.isEmpty then
          bootstrapAndFinish env sr root.sigs gun pin allValid certsForCN
        else if VerifyRoot env.sigValid root.sigs certsForCN then
          verifyAndRotate env root.sigs allValid certsForCN
        else
          (VResult.validationFail ("failed to validate data with current trusted certificates"),
           emptyTrace)

/-! ## Concrete sample inputs -/

/-- A previously trusted leaf certificate for GUN "gun". -/
def certA : Cert := ⟨"gun", 100, SigAlg.sha256WithRSA, false, [0]⟩

/-- A candidate leaf certificate for GUN "gun", distinct from certA. -/
def certB : Cert := ⟨"gun", 100, SigAlg.sha256WithRSA, false, [1]⟩

/-- A CA certificate used by the CA-pin samples. -/
def caRoot7 : Cert := ⟨"ca", 1000, SigAlg.sha256WithRSA, true, [5]⟩

/-- Baseline oracle: the store already trusts certA for the GUN, the
signature "sA" is valid exactly for certA, additions and removals
succeed. -/
def env0 : Env :=
  { now := 50
  , fpr := fun c => if c.der == [0] then some ("idA") else some ("idB")
  , sigValid := fun s c => s == "sA" && c.der == [0]
  , loadCert := fun _ => none
  , validateCA := fun _ => false
  , chainVerify := fun _ _ _ => false
  , getByCN := CertStoreRes.found [certA]
  , addCert := fun _ => AddRes.ok
  , removeCert := fun _ => true }

/-- Variant of env0 whose certificate store holds nothing for the GUN. -/
def env6 : Env := { env0 with getByCN := CertStoreRes.noCerts }

/-- Variant of env0 with a loadable, valid CA at path "capath" whose
chains verify exactly for certB. -/
def env7 : Env :=
  { env0 with
    loadCert := fun p => if p == "capath" then some caRoot7 else none
  , validateCA := fun c => c.isCA
  , chainVerify := fun c ca _ => ca.der == [5] && c.der == [1] }

/-- Variant of env0 in which every RemoveCert call fails. -/
def envRm : Env := { env0 with removeCert := fun _ => false }

/-- A parsed root whose single root key bundles exactly certB. -/
def srB : SignedRoot := ⟨some ["k1"], [("k1", BundleRes.certs [certB])]⟩

/-- The candidate root document around srB, carrying signature "sA". -/
def rootDocB : RootDoc := ⟨some srB, ["sA"]⟩

/-- A parsed root with no "root" role, hence no leaf certificates. -/
def srNone : SignedRoot := ⟨none, []⟩

/-- The candidate root document around srNone. -/
def rootDocNone : RootDoc := ⟨some srNone, []⟩

/-- Trust-pin configuration with nothing pinned and TOFU disabled. -/
def pin0 : TrustPinConfig := ⟨[], [], false⟩

/-- CA map sample: one entry matching GUN "gun", one not. -/
def entries7 : List (String × String) := [("g", "capath"), ("zz", "capath")]

/-- Trust-pin configuration with nothing pinned and TOFU enabled. -/
def pinTOFU : TrustPinConfig := ⟨[], [], true⟩

/-- Trust-pin configuration pinning GUN "gun" to certB's fingerprint. -/
def pinPinned : TrustPinConfig := ⟨[("gun", "idB")], [], false⟩

/-- Trust-pin configuration with a CA entry under prefix "g". -/
def pinCA : TrustPinConfig := ⟨[], [("g", "capath")], false⟩

/-- Key-registry oracle: the key already exists in the store. -/
def keyEnvExisting : KeyEnv :=
  ⟨Except.ok ("ecdsa", [7]), Except.error (KeyErr.other ("unused")), none,
   Except.error KeyErr.noKey⟩

/-- Key-registry oracle: no key, creation succeeds, SetKey loses the
race, and the re-read finds the racer's key. -/
def keyEnvRace : KeyEnv :=
  ⟨Except.error KeyErr.noKey, Except.ok ⟨"ed25519", [3]⟩, some KeyErr.keyExists,
   Except.ok ("ed25519", [9])⟩

/-- Key-registry oracle: the first GetKey fails with a non-ErrNoKey
error. -/
def keyEnvBroken : KeyEnv :=
  ⟨Except.error (KeyErr.other ("db down")), Except.ok ⟨"x", []⟩, none,
   Except.error KeyErr.noKey⟩

/-- Timestamp oracle: stored timestamp is unexpired and records hashes
matching the current snapshot bytes (the hash function is identity-like). -/
def tsEnvFresh : TsEnv :=
  { now := 10
  , wallClock := 11
  , hashFn := fun _ payload => payload
  , getCurrentTS := Except.ok (5, [1, 2])
  , parseTS := fun _ => Except.ok ⟨20, [("snapshot", [("sha256", [3])])]⟩
  , getSnapshot := Except.ok [3]
  , createTS := Except.ok ⟨"timestamp", 2, [9]⟩
  , updateCurrent := fun _ => none }

/-- Timestamp oracle: unexpired timestamp whose recorded snapshot hash
no longer matches the current snapshot bytes. -/
def tsEnvStale : TsEnv := { tsEnvFresh with getSnapshot := Except.ok [4] }

/-- Timestamp oracle: no timestamp document exists yet for the GUN. -/
def tsEnvMissing : TsEnv :=
  { now := 0
  , wallClock := 0
  , hashFn := fun _ _ => []
  , getCurrentTS := Except.error TsErr.notFound
  , parseTS := fun _ => Except.error ("never parsed")
  , getSnapshot := Except.ok []
  , createTS := Except.ok ⟨"timestamp", 1, []⟩
  , updateCurrent := fun _ => none }

/-! ## Theorems: signing-key registry -/

/-- Claim C3: one get-or-create call on the key registry
(GetOrCreateTimestampKey / GetOrCreateSnapshotKey) returns an
already-stored key immediately with no creation attempted; and when the
store reported no key but SetKey failed with "key already exists" (a
lost race), it re-reads via GetKey and returns the key that now exists,
never surfacing the conflict as an error. -/
theorem key_registry_get_or_create :
    (∀ (env : KeyEnv) (kp : String × List Nat), env.getKey1 = Except.ok kp →
      GetOrCreateTimestampKey env = (Except.ok (NewPublicKey kp.1 kp.2), ⟨false, false⟩) ∧
      GetOrCreateSnapshotKey env = (Except.ok (NewPublicKey kp.1 kp.2), ⟨false, false⟩)) ∧
    (∀ (env : KeyEnv) (key : PubKey) (kp2 : String × List Nat),
      env.getKey1 = Except.error KeyErr.noKey → env.create = Except.ok key →
      env.setKey = some KeyErr.keyExists → env.getKey2 = Except.ok kp2 →
      GetOrCreateTimestampKey env = (Except.ok (NewPublicKey kp2.1 kp2.2), ⟨true, true⟩) ∧
      GetOrCreateSnapshotKey env = (Except.ok (NewPublicKey kp2.1 kp2.2), ⟨true, true⟩)) := by
  constructor
  · intro env kp h
    constructor <;> simp [GetOrCreateSnapshotKey, GetOrCreateTimestampKey, h]
  · intro env key kp2 h1 h2 h3 h4
    constructor <;> simp [GetOrCreateSnapshotKey, GetOrCreateTimestampKey, h1, h2, h3, h4]

/-- Concrete runs of the registry: an existing key is returned with no
creation, and a lost SetKey race converges on the racer's key. -/
theorem key_registry_get_or_create_inst :
    GetOrCreateTimestampKey keyEnvExisting =
      (Except.ok (NewPublicKey ("ecdsa") [7]), ⟨false, false⟩) ∧
    GetOrCreateTimestampKey keyEnvRace =
      (Except.ok (NewPublicKey ("ed25519") [9]), ⟨true, true⟩) :=
  ⟨(key_registry_get_or_create.1 keyEnvExisting (("ecdsa"), [7]) rfl).1,
   (key_registry_get_or_create.2 keyEnvRace ⟨"ed25519", [3]⟩ (("ed25519"), [9])
     rfl rfl rfl rfl).1⟩

/-- Claim C10: a first GetKey failure other than ErrNoKey is returned
unchanged, and neither crypto Create nor store SetKey is invoked. -/
theorem key_registry_error_propagation :
    ∀ (env : KeyEnv) (e : KeyErr), env.getKey1 = Except.error e → e ≠ KeyErr.noKey →
      GetOrCreateTimestampKey env = (Except.error e, ⟨false, false⟩) ∧
      GetOrCreateSnapshotKey env = (Except.error e, ⟨false, false⟩) := by
  intro env e h hne
  cases e with
  | noKey => exact absurd rfl hne
  | keyExists => constructor <;> simp [GetOrCreateSnapshotKey, GetOrCreateTimestampKey, h]
  | other msg => constructor <;> simp [GetOrCreateSnapshotKey, GetOrCreateTimestampKey, h]

/-- Concrete run: a store outage on the first GetKey propagates and the
run performs no mutating call. -/
theorem key_registry_error_propagation_inst :
    GetOrCreateTimestampKey keyEnvBroken =
      (Except.error (KeyErr.other ("db down")), ⟨false, false⟩) :=
  (key_registry_error_propagation keyEnvBroken (KeyErr.other ("db down")) rfl
    (by decide)).1

/-! ## Theorems: timestamp freshness engine -/

/-- Claim C4: assuming the fetch, parse, snapshot, generation and
persist steps succeed, GetOrCreateTimestamp returns the stored bytes
unchanged exactly when the timestamp is unexpired and its recorded
snapshot hashes match the current snapshot bytes; otherwise a new
timestamp is generated, persisted via UpdateCurrent, and returned. -/
theorem timestamp_freshness_decision :
    ∀ (env : TsEnv) (lm : Nat) (tsJSON : List Nat) (prev : SignedTimestamp)
      (snap : List Nat) (upd : MetaUpdate),
      env.getCurrentTS = Except.ok (lm, tsJSON) →
      env.parseTS tsJSON = Except.ok prev →
      env.getSnapshot = Except.ok snap →
      env.createTS = Except.ok upd →
      env.updateCurrent upd = none →
      GetOrCreateTimestamp env =
        (if !timestampExpired env.now prev && !snapshotExpired env.hashFn prev snap
         then (Except.ok (lm, tsJSON), none)
         else (Except.ok (env.wallClock, upd.data), some upd)) := by
  intro env lm tsJSON prev snap upd h1 h2 h3 h4 h5
  simp only [GetOrCreateTimestamp, h1]
  simp only [h2, h3]
  by_cases hc : (!timestampExpired env.now prev && !snapshotExpired env.hashFn prev snap) = true
  · simp [hc]
  · simp only [Bool.not_eq_true] at hc
    simp [hc, h4, h5]

/-- Concrete runs: a fresh timestamp is returned unchanged with nothing
persisted; a hash mismatch without expiry regenerates and persists. -/
theorem timestamp_freshness_decision_inst :
    GetOrCreateTimestamp tsEnvFresh = (Except.ok (5, [1, 2]), none) ∧
    GetOrCreateTimestamp tsEnvStale =
      (Except.ok (11, [9]), some ⟨"timestamp", 2, [9]⟩) :=
  ⟨(timestamp_freshness_decision tsEnvFresh 5 [1, 2]
      ⟨20, [("snapshot", [("sha256", [3])])]⟩ [3] ⟨"timestamp", 2, [9]⟩
      rfl rfl rfl rfl rfl).trans rfl,
   (timestamp_freshness_decision tsEnvStale 5 [1, 2]
      ⟨20, [("snapshot", [("sha256", [3])])]⟩ [4] ⟨"timestamp", 2, [9]⟩
      rfl rfl rfl rfl rfl).trans rfl⟩

/-- Claim C8 (code bug): with no stored timestamp for the GUN,
GetOrCreateTimestamp propagates the store's not-found error and calls
UpdateCurrent on nothing, although its own doc comment promises that a
new timestamp is generated when none exists. -/
theorem timestamp_missing_propagates :
    ∀ (env : TsEnv), env.getCurrentTS = Except.error TsErr.notFound →
      GetOrCreateTimestamp env = (Except.error TsErr.notFound, none) := by
  intro env h
  simp [GetOrCreateTimestamp, h]

/-- Concrete run of the missing-timestamp path: the not-found error is
surfaced instead of a lazily created first timestamp. -/
theorem timestamp_missing_propagates_inst :
    GetOrCreateTimestamp tsEnvMissing = (Except.error TsErr.notFound, none) :=
  timestamp_missing_propagates tsEnvMissing rfl

/-! ## Theorems: trust bootstrap and rotation -/

/-- Claim C5: a candidate root with zero valid leaf certificates — none
that simultaneously has Common Name equal to the GUN, is unexpired, and
avoids the SHA-1 family — makes ValidateRoot fail with
ErrValidationFail. -/
theorem validateRoot_no_valid_leaves :
    ∀ (env : Env) (root : RootDoc) (gun : String) (pin : TrustPinConfig)
      (sr : SignedRoot),
      root.parsed = some sr →
      ((parseAllCerts env.fpr sr).1.map Prod.snd).filter (validLeafPred env.now gun) = [] →
      (ValidateRoot env root gun pin).1 =
        VResult.validationFail ("unable to retrieve valid leaf certificates") := by
  intro env root gun pin sr hp hempty
  have hv : validRootLeafCerts env.fpr env.now sr gun = Except.error () := by
    simp [validRootLeafCerts, hempty]
  obtain ⟨p, sigs⟩ := root
  simp only [RootDoc.parsed] at hp
  subst hp
  simp [ValidateRoot, hv]

/-- Concrete run: a root with no "root" role has no valid leaves and is
rejected with ErrValidationFail. -/
theorem validateRoot_no_valid_leaves_inst :
    (ValidateRoot env0 rootDocNone ("gun") pin0).1 =
      VResult.validationFail ("unable to retrieve valid leaf certificates") :=
  validateRoot_no_valid_leaves env0 rootDocNone ("gun") pin0 srNone rfl rfl

/-- Claim C6: with no stored certificates for the GUN, no pinned
certificate entry, no CA key prefixing the GUN, and TOFU disabled,
ValidateRoot fails with ErrValidationFail regardless of the root's
signatures. -/
theorem validateRoot_no_trust_path :
    ∀ (env : Env) (root : RootDoc) (gun : String) (pin : TrustPinConfig)
      (sr : SignedRoot),
      root.parsed = some sr →
      (env.getByCN = CertStoreRes.noCerts ∨ env.getByCN = CertStoreRes.found []) →
      List.lookup gun pin.Certs = none →
      containsKeyPrefixFor pin.CA gun = false →
      pin.TOFU = false →
      ((ValidateRoot env root gun pin).1).isValidationFail = true := by
  intro env root gun pin sr hp hcn hlook hca htofu
  obtain ⟨p, sigs⟩ := root
  simp only [RootDoc.parsed] at hp
  subst hp
  have hboot : ∀ allValid : List Cert, bootstrapTrust env sr gun pin allValid =
      Except.error ("could not bootstrap trust without trust_pinning configuration") := by
    intro allValid
    simp [bootstrapTrust, hlook, hca, htofu]
  cases hv : validRootLeafCerts env.fpr env.now sr gun with
  | error e => simp [ValidateRoot, hv, VResult.isValidationFail]
  | ok allValid =>
    rcases hcn with hcn | hcn <;>
      simp [ValidateRoot, hv, hcn, bootstrapAndFinish, hboot, VResult.isValidationFail]

/-- Concrete run: an empty store, empty pin configuration, and TOFU off
reject a root carrying a valid leaf and a valid signature. -/
theorem validateRoot_no_trust_path_inst :
    ((ValidateRoot env6 rootDocB ("gun") pin0).1).isValidationFail = true :=
  validateRoot_no_trust_path env6 rootDocB ("gun") pin0 srB rfl (Or.inl rfl) rfl rfl rfl

/-- Claim C9: certsToRemove returns nothing whenever the new set is
empty, and consequently the rotation step performs no RemoveCert call
and succeeds when the accepted set is empty, never erasing a non-empty
trusted set down to nothing. -/
theorem certsToRemove_empty_accepted :
    (∀ (fpr : Cert → Option String) (oldCerts : List Cert),
      certsToRemove fpr oldCerts [] = []) ∧
    (∀ (env : Env) (existing : List Cert),
      (rotation env [] existing).2.removed = [] ∧
      (rotation env [] existing).1 = VResult.ok) :=
  ⟨fun _ _ => rfl, fun _ _ => ⟨rfl, rfl⟩⟩

/-- The removal loop succeeds exactly when every scheduled removal
succeeds. -/
theorem removeLoop_fst (rm : Cert → Bool) :
    ∀ l : List Cert, (removeLoop rm l).1 = l.all rm := by
  intro l
  induction l with
  | nil => rfl
  | cons c rest ih =>
    simp only [removeLoop, List.all_cons]
    cases h : rm c
    · simp [h]
    · simp [h, ih]

/-- Claim C2: in ValidateRoot's rotation step, AddCert outcomes never
change the result; every accepted certificate is attempted regardless of
add failures; any RemoveCert failure on a certificate scheduled for
removal yields ErrRootRotationFail; and that outcome is distinct from
ErrValidationFail. -/
theorem rotation_error_policy :
    (∀ (env : Env) (a : Cert → AddRes) (accepted existing : List Cert),
      (rotation { env with addCert := a } accepted existing).1 =
        (rotation env accepted existing).1) ∧
    (∀ (env : Env) (accepted existing : List Cert),
      (rotation env accepted existing).2.adds =
        accepted.map fun c => (c, env.addCert c)) ∧
    (∀ (env : Env) (accepted existing : List Cert) (c : Cert),
      c ∈ (certsToRemove env.fpr existing accepted).map Prod.snd →
      env.removeCert c = false →
      (rotation env accepted existing).1 =
        VResult.rotationFail ("failed to rotate root keys")) ∧
    (∀ (msg : String),
      VResult.isValidationFail (VResult.rotationFail msg) = false ∧
      VResult.isRotationFail (VResult.rotationFail msg) = true) := by
  refine ⟨?_, ?_, ?_, ?_⟩
  · intro env a accepted existing
    rfl
  · intro env accepted existing
    rfl
  · intro env accepted existing c hmem hrm
    have hall : ((certsToRemove env.fpr existing accepted).map Prod.snd).all
        env.removeCert = false := by
      cases hall : ((certsToRemove env.fpr existing accepted).map Prod.snd).all
          env.removeCert
      · rfl
      · exact absurd (List.all_eq_true.mp hall c hmem) (by simp [hrm])
    simp [rotation, removeLoop_fst, hall]
  · intro msg
    exact ⟨rfl, rfl⟩

/-- Concrete runs of the rotation step: add failures leave the outcome
unchanged and every certificate is attempted; a failing removal of the
replaced certificate yields ErrRootRotationFail. -/
theorem rotation_error_policy_inst :
    (rotation { env0 with addCert := fun _ => AddRes.otherErr } [certB] [certA]).1 =
      (rotation env0 [certB] [certA]).1 ∧
    (rotation env0 [certB] [certA]).2.adds =
      [certB].map (fun c => (c, env0.addCert c)) ∧
    (rotation envRm [certB] [certA]).1 =
      VResult.rotationFail ("failed to rotate root keys") ∧
    VResult.isValidationFail (VResult.rotationFail ("failed to rotate root keys")) = false :=
  ⟨rotation_error_policy.1 env0 (fun _ => AddRes.otherErr) [certB] [certA],
   rotation_error_policy.2.1 env0 [certB] [certA],
   rotation_error_policy.2.2.1 envRm [certB] [certA] certA (by decide) rfl,
   (rotation_error_policy.2.2.2 ("failed to rotate root keys")).1⟩

/-- Folding the matching-CA accumulator from an error is the error. -/
theorem caAccum_error_foldl (env : Env) (root : SignedRoot) (msg : String) :
    ∀ entries : List (String × String),
      entries.foldl (caAccum env root) (Except.error msg) = Except.error msg := by
  intro entries
  induction entries with
  | nil => rfl
  | cons e rest ih =>
    simp only [List.foldl_cons, caAccum]
    exact ih

/-- The CA-pin loop equals the fold of caStep over exactly the entries
whose key prefixes the GUN, in order. -/
theorem caLoop_eq_matchFold (env : Env) (root : SignedRoot) (gun : String) :
    ∀ (entries : List (String × String)) (certs : List Cert),
      caLoop env root gun entries certs =
        caMatchFold env root (entries.filter fun e => e.1.isPrefixOf gun) certs := by
  intro entries
  induction entries with
  | nil => intro certs; rfl
  | cons e rest ih =>
    intro certs
    by_cases hpf : e.1.isPrefixOf gun = true
    · cases hstep : caStep env root e.2 certs with
      | error msg =>
        simp [caLoop, caMatchFold, List.filter_cons, hpf, hstep, caAccum,
          caAccum_error_foldl]
      | ok kept =>
        simp [caLoop, caMatchFold, List.filter_cons, hpf, hstep, caAccum, ih kept]
    · simp [caLoop, caMatchFold, List.filter_cons, hpf, ih certs]

/-- Claim C7: the CA-pin bootstrap processes the matching CA prefixes in
order as a fold; each successful matching step retains exactly the
chain-verified subset of the currently retained leaves (a narrowing of
it); and on overlapping prefixes the final retained set is the last
matching step applied to the outcome of all earlier ones. -/
theorem ca_pin_narrowing :
    (∀ (env : Env) (root : SignedRoot) (gun : String)
       (entries : List (String × String)) (certs : List Cert),
      caLoop env root gun entries certs =
        caMatchFold env root (entries.filter fun e => e.1.isPrefixOf gun) certs) ∧
    (∀ (env : Env) (root : SignedRoot) (caFilepath : String)
       (certs : List Cert) (caCert : Cert),
      env.loadCert caFilepath = some caCert →
      env.validateCA caCert = true →
      caStep env root caFilepath certs =
        Except.ok (certs.filter (caKeep env root caCert)) ∧
      certs.filter (caKeep env root caCert) ⊆ certs) ∧
    (∀ (env : Env) (root : SignedRoot) (ms : List (String × String))
       (m : String × String) (certs : List Cert),
      caMatchFold env root (ms ++ [m]) certs =
        caAccum env root (caMatchFold env root ms certs) m) := by
  refine ⟨fun env root gun => caLoop_eq_matchFold env root gun, ?_, ?_⟩
  · intro env root caFilepath certs caCert hload hca
    refine ⟨by simp [caStep, hload, hca], fun c hc => (List.mem_filter.mp hc).1⟩
  · intro env root ms m certs
    simp [caMatchFold, List.foldl_append]

/-- Concrete runs of the CA-pin bootstrap: the loop equals the fold over
matching prefixes, a valid CA step retains the chain-verified filter of
the current set, and appending a final matching entry applies its step
last. -/
theorem ca_pin_narrowing_inst :
    caLoop env7 srB ("gun") entries7 [certA, certB] =
      caMatchFold env7 srB (entries7.filter fun e => e.1.isPrefixOf ("gun")) [certA, certB] ∧
    caStep env7 srB ("capath") [certA, certB] =
      Except.ok ([certA, certB].filter (caKeep env7 srB caRoot7)) ∧
    caMatchFold env7 srB (entries7 ++ [("g", "capath")]) [certB] =
      caAccum env7 srB (caMatchFold env7 srB entries7 [certB]) (("g"), ("capath")) :=
  ⟨ca_pin_narrowing.1 env7 srB ("gun") entries7 [certA, certB],
   (ca_pin_narrowing.2.1 env7 srB ("capath") [certA, certB] caRoot7 rfl rfl).1,
   ca_pin_narrowing.2.2 env7 srB entries7 (("g"), ("capath")) [certB]⟩

/-- Counterexample to claim C1 as stated: with prior trust for the GUN,
a candidate root whose signature verifies against the existing
certificate set (the set produced by the trust decision) still fails,
because ValidateRoot additionally verifies the root against the
candidate's own leaf certificates — a second certificate set. -/
theorem validateRoot_second_verification_cex :
    env0.getByCN = CertStoreRes.found [certA] ∧
    VerifyRoot env0.sigValid rootDocB.sigs [certA] = true ∧
    env0.removeCert certA = true ∧
    (ValidateRoot env0 rootDocB ("gun") pin0).1 =
      VResult.validationFail ("failed to validate integrity of roots") :=
  ⟨rfl, rfl, rfl, rfl⟩

/-- Claim C1 (amended): when the store already holds certificates for
the GUN, the candidate root is verified first against that existing set
and then additionally against the candidate's valid leaf set, and both
must verify.  In the bootstrap case the set accepted by the trust
decision is the sole verification set, and that set is the pinned
certificate alone under a Certs pin, the CA-narrowing loop's result
under a CA prefix match, and the candidate leaves themselves under
TOFU; VerifyRoot at threshold 0 succeeds exactly when some one
signature is valid against some certificate of the set. -/
theorem validateRoot_verification_sets :
    (∀ (env : Env) (root : RootDoc) (gun : String) (pin : TrustPinConfig)
       (sr : SignedRoot) (leaves existing : List Cert),
      root.parsed = some sr →
      validRootLeafCerts env.fpr env.now sr gun = Except.ok leaves →
      env.getByCN = CertStoreRes.found existing →
      existing.isEmpty = false →
      (ValidateRoot env root gun pin).1 =
        (if VerifyRoot env.sigValid root.sigs existing then
           (if VerifyRoot env.sigValid root.sigs leaves then
              (rotation env leaves existing).1
            else VResult.validationFail ("failed to validate integrity of roots"))
         else VResult.validationFail ("failed to validate data with current trusted certificates"))) ∧
    (∀ (env : Env) (root : RootDoc) (gun : String) (pin : TrustPinConfig)
       (sr : SignedRoot) (leaves accepted : List Cert),
      root.parsed = some sr →
      validRootLeafCerts env.fpr env.now sr gun = Except.ok leaves →
      (env.getByCN = CertStoreRes.noCerts ∨ env.getByCN = CertStoreRes.found []) →
      bootstrapTrust env sr gun pin leaves = Except.ok accepted →
      (ValidateRoot env root gun pin).1 =
        (if VerifyRoot env.sigValid root.sigs accepted then (rotation env accepted []).1
         else VResult.validationFail ("failed to validate integrity of roots"))) ∧
    (∀ (env : Env) (sr : SignedRoot) (gun : String) (pin : TrustPinConfig)
       (leaves : List Cert) (pinnedID : String) (c : Cert),
      List.lookup gun pin.Certs = some pinnedID →
      findPinned env.fpr pinnedID leaves = some c →
      bootstrapTrust env sr gun pin leaves = Except.ok [c]) ∧
    (∀ (env : Env) (sr : SignedRoot) (gun : String) (pin : TrustPinConfig)
       (leaves : List Cert),
      List.lookup gun pin.Certs = none →
      bootstrapTrust env sr gun pin leaves =
        (if containsKeyPrefixFor pin.CA gun then
           (if 0 < pin.CA.length then caLoop env sr gun pin.CA leaves
            else Except.ok leaves)
         else if pin.TOFU then Except.ok leaves
         else Except.error ("could not bootstrap trust without trust_pinning configuration"))) ∧
    (∀ (sv : String → Cert → Bool) (sigs : List String) (certs : List Cert),
      VerifyRoot sv sigs certs = true ↔ ∃ s, s ∈ sigs ∧ ∃ c, c ∈ certs ∧ sv s c = true) := by
  refine ⟨?_, ?_, ?_, ?_, ?_⟩
  · intro env root gun pin sr leaves existing hp hv hcn hne
    obtain ⟨p, sigs⟩ := root
    simp only [RootDoc.parsed] at hp
    subst hp
    cases hV1 : VerifyRoot env.sigValid sigs existing <;>
      cases hV2 : VerifyRoot env.sigValid sigs leaves <;>
        simp [ValidateRoot, verifyAndRotate, hv, hcn, hne, hV1, hV2]
  · intro env root gun pin sr leaves accepted hp hv hcn hboot
    obtain ⟨p, sigs⟩ := root
    simp only [RootDoc.parsed] at hp
    subst hp
    rcases hcn with hcn | hcn <;>
      cases hV : VerifyRoot env.sigValid sigs accepted <;>
        simp [ValidateRoot, bootstrapAndFinish, verifyAndRotate, hv, hcn, hboot, hV]
  · intro env sr gun pin leaves pinnedID c hlook hfind
    simp [bootstrapTrust, hlook, hfind]
  · intro env sr gun pin leaves hlook
    simp [bootstrapTrust, hlook]
  · intro sv sigs certs
    simp [VerifyRoot, List.any_eq_true]

/-- Concrete runs of the amended claim: the existing-trust path is
decided by the two verifications in sequence; a TOFU bootstrap makes
its accepted set the sole verification set; a Certs pin accepts
exactly the pinned certificate; with no Certs pin the trust decision
is the CA-prefix test and, on a match, the CA-narrowing loop; and the
threshold-0 check is witnessed by a single valid signature. -/
theorem validateRoot_verification_sets_inst :
    (ValidateRoot env0 rootDocB ("gun") pin0).1 =
      (if VerifyRoot env0.sigValid rootDocB.sigs [certA] then
         (if VerifyRoot env0.sigValid rootDocB.sigs [certB] then
            (rotation env0 [certB] [certA]).1
          else VResult.validationFail ("failed to validate integrity of roots"))
       else VResult.validationFail ("failed to validate data with current trusted certificates")) ∧
    (ValidateRoot env6 rootDocB ("gun") pinTOFU).1 =
      (if VerifyRoot env6.sigValid rootDocB.sigs [certB] then
         (rotation env6 [certB] []).1
       else VResult.validationFail ("failed to validate integrity of roots")) ∧
    bootstrapTrust env6 srB ("gun") pinPinned [certB] = Except.ok [certB] ∧
    bootstrapTrust env7 srB ("gun") pinCA [certB] =
      (if containsKeyPrefixFor pinCA.CA ("gun") then
         (if 0 < pinCA.CA.length then caLoop env7 srB ("gun") pinCA.CA [certB]
          else Except.ok [certB])
       else if pinCA.TOFU then Except.ok [certB]
       else Except.error ("could not bootstrap trust without trust_pinning configuration")) ∧
    VerifyRoot env0.sigValid ["sA"] [certA] = true :=
  ⟨validateRoot_verification_sets.1 env0 rootDocB ("gun") pin0 srB [certB] [certA]
     rfl rfl rfl rfl,
   validateRoot_verification_sets.2.1 env6 rootDocB ("gun") pinTOFU srB [certB] [certB]
     rfl rfl (Or.inl rfl) rfl,
   validateRoot_verification_sets.2.2.1 env6 srB ("gun") pinPinned [certB] ("idB") certB
     rfl rfl,
   validateRoot_verification_sets.2.2.2.1 env7 srB ("gun") pinCA [certB] rfl,
   (validateRoot_verification_sets.2.2.2.2 env0.sigValid ["sA"] [certA]).mpr
     ⟨("sA"), by simp, certA, by simp, rfl⟩⟩

end Notary
